import Mathlib

/-!
Shallow embedding of the remote-service (data platform) backend of the
quartz-api repository: `src/quartz_api/internal/backends/dataplatform/client.py`
and the domain model in `src/quartz_api/internal/models.py`.

Timestamps are modelled as integers (minutes since an arbitrary epoch), so a
`dt.timedelta(minutes=m)` subtraction is integer subtraction. Float
expressions of the client are modelled over the rationals. The helper
`get_window` lives in `backends/utils.py`, which is not among the sources;
every embedded operation therefore receives the reporting window as an
explicit parameter, and no theorem below depends on its internals.

Each backend operation is embedded as a pure function from a `DpClient`
environment (the response behaviour of the remote data platform service) to
an `Except` result paired with the trace of remote queries it issued, in
order.
-/

/-- Energy source enumeration of the data platform SDK (`dp.EnergySource`). -/
inductive EnergySource
  | solar
  | wind
deriving DecidableEq, Repr

/-- Location type enumeration of the data platform SDK (`dp.LocationType`). -/
inductive LocationType
  | site
  | state
deriving DecidableEq, Repr

/-- Forecast horizon options (`models.py`, `ForecastHorizon`). -/
inductive ForecastHorizon
  | latest
  | horizon
  | day_ahead
deriving DecidableEq, Repr

/-- Python `int()` applied to an exact rational value: truncation toward zero. -/
def pyTrunc (q : ℚ) : ℤ :=
  if 0 ≤ q then ⌊q⌋ else ⌈q⌉

/-- Model `PredictedPower` (`models.py`). `CreatedTime` is declared with
`Field(exclude=True)` and is therefore excluded from client serialization. -/
structure PredictedPower where
  PowerKW : ℚ
  Time : ℤ
  CreatedTime : ℤ
deriving DecidableEq, Repr

/-- Model `ActualPower` (`models.py`). -/
structure ActualPower where
  PowerKW : ℚ
  Time : ℤ
deriving DecidableEq, Repr

/-- A serialized field value of a pydantic model dump. -/
inductive FieldValue
  | num (q : ℚ)
  | time (t : ℤ)
deriving DecidableEq, Repr

/-- Client-visible serialization of a `PredictedPower` value: the pydantic
model dump contains `PowerKW` and `Time`, while `CreatedTime` carries
`Field(exclude=True)` (`models.py` line 29) and is omitted. -/
def PredictedPower.serializedFields (p : PredictedPower) : List (String × FieldValue) :=
  [("PowerKW", FieldValue.num p.PowerKW), ("Time", FieldValue.time p.Time)]

/-- Model `SiteProperties` (`models.py`): the mutation payload, all fields optional. -/
structure SiteProperties where
  client_site_name : Option String
  orientation : Option ℚ
  tilt : Option ℚ
  latitude : Option ℚ
  longitude : Option ℚ
  capacity_kw : Option ℚ
deriving DecidableEq, Repr

/-- Model `Site` (`models.py`). The pydantic field defaults `orientation=180` and
`tilt=35` apply only when the corresponding constructor argument is omitted;
the data platform client constructs every `Site` passing each field
explicitly (possibly as `None`), so they are plain fields here. -/
structure Site where
  site_uuid : String
  client_site_name : Option String
  orientation : Option ℚ
  tilt : Option ℚ
  latitude : ℚ
  longitude : ℚ
  capacity_kw : ℚ
deriving DecidableEq, Repr

/-- Message `dp.TimeWindow`. -/
structure TimeWindow where
  start_timestamp_utc : ℤ
  end_timestamp_utc : ℤ
deriving DecidableEq, Repr

/-- Message `dp.ListLocationsRequest`; proto fields left unset by the client are the
proto defaults (empty list and unset oauth filter). -/
structure ListLocationsRequest where
  location_uuids_filter : List String
  energy_source_filter : EnergySource
  location_type_filter : LocationType
  user_oauth_id_filter : Option String
deriving DecidableEq, Repr

/-- A location record of a `ListLocationsResponse`; `metadata_fields` models
the `loc.metadata.fields` struct as an association list of numeric values. -/
structure DpLocation where
  location_uuid : String
  location_name : String
  metadata_fields : List (String × ℚ)
  effective_capacity_watts : ℤ
  latitude : ℚ
  longitude : ℚ
deriving DecidableEq, Repr

/-- A forecast run record of a `GetLatestForecastsResponse`. -/
structure DpForecast where
  forecaster : String
  created_timestamp_utc : ℤ
deriving DecidableEq, Repr

/-- Message `dp.GetLatestForecastsRequest`. -/
structure GetLatestForecastsRequest where
  location_uuid : String
  energy_source : EnergySource
  pivot_timestamp_utc : ℤ
deriving DecidableEq, Repr

/-- Message `dp.GetForecastAsTimeseriesRequest`. -/
structure GetForecastAsTimeseriesRequest where
  location_uuid : String
  energy_source : EnergySource
  horizon_mins : ℤ
  time_window : TimeWindow
  forecaster : String
deriving DecidableEq, Repr

/-- A value of a `GetForecastAsTimeseriesResponse`. -/
structure ForecastValue where
  target_timestamp_utc : ℤ
  created_timestamp_utc : ℤ
  effective_capacity_watts : ℚ
  p50_value_fraction : ℚ
deriving DecidableEq, Repr

/-- Message `dp.GetObservationsAsTimeseriesRequest`. -/
structure GetObservationsAsTimeseriesRequest where
  location_uuid : String
  observer_name : String
  energy_source : EnergySource
  time_window : TimeWindow
deriving DecidableEq, Repr

/-- A value of a `GetObservationsAsTimeseriesResponse`. -/
structure ObservationValue where
  timestamp_utc : ℤ
  effective_capacity_watts : ℚ
  value_fraction : ℚ
deriving DecidableEq, Repr

/-- One remote query issued by the client, as recorded in the trace. -/
inductive Query
  | listLocations (req : ListLocationsRequest)
  | getLatestForecasts (req : GetLatestForecastsRequest)
  | getForecastAsTimeseries (req : GetForecastAsTimeseriesRequest)
  | getObservationsAsTimeseries (req : GetObservationsAsTimeseriesRequest)
deriving DecidableEq, Repr

/-- The energy source dimension of a remote query. -/
def Query.energySourceOf : Query → EnergySource
  | Query.listLocations req => req.energy_source_filter
  | Query.getLatestForecasts req => req.energy_source
  | Query.getForecastAsTimeseries req => req.energy_source
  | Query.getObservationsAsTimeseries req => req.energy_source

/-- Response behaviour of the remote data platform service
(`dp.DataPlatformDataServiceStub`): each RPC is a function of its request. -/
structure DpClient where
  list_locations : ListLocationsRequest → List DpLocation
  get_latest_forecasts : GetLatestForecastsRequest → List DpForecast
  get_forecast_as_timeseries : GetForecastAsTimeseriesRequest → List ForecastValue
  get_observations_as_timeseries : GetObservationsAsTimeseriesRequest → List ObservationValue

/-- Errors raised by the client: `fastapi.HTTPException` and
`NotImplementedError`. -/
inductive ApiError
  | httpException (status_code : ℤ) (detail : String)
  | notImplementedError (msg : String)
deriving DecidableEq, Repr

/-- The message of the `NotImplementedError` raised by both write
operations. -/
def siteWritingMsg : String := "Data Platform client doesn\x27t yet support site writing."

/-- Extracts the value list of a successful result, empty on error. -/
def okValues {α : Type} (r : Except ApiError (List α) × List Query) : List α :=
  match r.1 with
  | Except.ok xs => xs
  | Except.error _ => []

/-- Request built by `_check_user_access` (`client.py` lines 291 to 296). -/
def accessRequest (location : String) (energy_source : EnergySource)
    (location_type : LocationType) (oauth_id : String) : ListLocationsRequest :=
  { location_uuids_filter := [location]
    energy_source_filter := energy_source
    location_type_filter := location_type
    user_oauth_id_filter := some oauth_id }

/-- Method `_check_user_access` (`client.py` lines 283 to 303): lists locations
filtered by uuid, energy source, location type and oauth id, raising a 404
`HTTPException` when none match. -/
def check_user_access (client : DpClient) (location : String) (energy_source : EnergySource)
    (location_type : LocationType) (oauth_id : String) : Except ApiError Bool × List Query :=
  let req := accessRequest location energy_source location_type oauth_id
  let resp := client.list_locations req
  if resp.length = 0 then
    (Except.error (ApiError.httpException 404
      ("No location found for UUID " ++ location ++ " and OAuth ID " ++ oauth_id)),
     [Query.listLocations req])
  else
    (Except.ok true, [Query.listLocations req])

/-- Horizon resolution of `_get_predicted_power_production_for_location`
(`client.py` lines 236 to 242): `latest` or a missing
`forecast_horizon_minutes` resolves to 0 first; otherwise `day_ahead`
resolves to 9 * 60; otherwise the supplied minutes are kept. -/
def resolve_forecast_horizon_minutes (forecast_horizon : ForecastHorizon)
    (forecast_horizon_minutes : Option ℤ) : ℤ :=
  match forecast_horizon, forecast_horizon_minutes with
  | ForecastHorizon.latest, _ => 0
  | _, none => 0
  | ForecastHorizon.day_ahead, some _ => 9 * 60
  | ForecastHorizon.horizon, some m => m

/-- The descending-creation-time comparison used to sort forecast runs
(`resp.forecasts.sort(key=..., reverse=True)`, `client.py` lines 255 to 258). -/
def createdDesc (a b : DpForecast) : Bool :=
  decide (b.created_timestamp_utc ≤ a.created_timestamp_utc)

/-- Run selection of `client.py` lines 255 to 259: stable sort by creation
timestamp descending, then take the first element. Total via a default for
the (guarded) empty case. -/
def select_forecaster (forecasts : List DpForecast) : String :=
  ((forecasts.mergeSort createdDesc).headD
    { forecaster := "", created_timestamp_utc := 0 }).forecaster

/-- The `GetLatestForecastsRequest` of `client.py` lines 247 to 251: the pivot
timestamp is the window start minus the resolved horizon minutes. -/
def forecastsRequest (window : TimeWindow) (location : String) (energy_source : EnergySource)
    (forecast_horizon : ForecastHorizon) (forecast_horizon_minutes : Option ℤ) :
    GetLatestForecastsRequest :=
  { location_uuid := location
    energy_source := energy_source
    pivot_timestamp_utc := window.start_timestamp_utc -
      resolve_forecast_horizon_minutes forecast_horizon forecast_horizon_minutes }

/-- The `GetForecastAsTimeseriesRequest` of `client.py` lines 261 to 270,
with the forecaster selected from the run-listing response. -/
def valuesRequest (client : DpClient) (window : TimeWindow) (location : String)
    (energy_source : EnergySource) (forecast_horizon : ForecastHorizon)
    (forecast_horizon_minutes : Option ℤ) : GetForecastAsTimeseriesRequest :=
  { location_uuid := location
    energy_source := energy_source
    horizon_mins := resolve_forecast_horizon_minutes forecast_horizon forecast_horizon_minutes
    time_window := window
    forecaster := select_forecaster
      (client.get_latest_forecasts
        (forecastsRequest window location energy_source forecast_horizon
          forecast_horizon_minutes)) }

/-- Conversion of one forecast timeseries value (`client.py` lines 273 to
280): kW power is the Python `int()` of watts times the p50 fraction over
1000. -/
def predicted_power_of_value (v : ForecastValue) : PredictedPower :=
  { Time := v.target_timestamp_utc
    PowerKW := (pyTrunc (v.effective_capacity_watts * v.p50_value_fraction / 1000) : ℚ)
    CreatedTime := v.created_timestamp_utc }

/-- Conversion of one observation timeseries value (`client.py` lines 206 to
212). -/
def actual_power_of_value (v : ObservationValue) : ActualPower :=
  { Time := v.timestamp_utc
    PowerKW := (pyTrunc (v.effective_capacity_watts * v.value_fraction / 1000) : ℚ) }

/-- Body of `_get_predicted_power_production_for_location` after the access
check (`client.py` lines 234 to 281): resolve the horizon, list forecast
runs at the pivot, return empty when none exist, otherwise select the most
recently created run and fetch its values over the window. -/
def get_predicted_core (client : DpClient) (window : TimeWindow) (location : String)
    (energy_source : EnergySource) (forecast_horizon : ForecastHorizon)
    (forecast_horizon_minutes : Option ℤ) :
    Except ApiError (List PredictedPower) × List Query :=
  let req1 := forecastsRequest window location energy_source forecast_horizon
    forecast_horizon_minutes
  let forecasts := client.get_latest_forecasts req1
  if forecasts.length = 0 then
    (Except.ok [], [Query.getLatestForecasts req1])
  else
    let req2 := valuesRequest client window location energy_source forecast_horizon
      forecast_horizon_minutes
    (Except.ok ((client.get_forecast_as_timeseries req2).map predicted_power_of_value),
     [Query.getLatestForecasts req1, Query.getForecastAsTimeseries req2])

/-- Method `_get_predicted_power_production_for_location` (`client.py` lines 216 to
281): an access check first when an oauth id is present (its failure
propagates), then the core retrieval. `smooth_flag` is accepted and unused,
as in the source. -/
def get_predicted_power_production_for_location (client : DpClient) (window : TimeWindow)
    (location : String) (energy_source : EnergySource) (oauth_id : Option String)
    (forecast_horizon : ForecastHorizon) (forecast_horizon_minutes : Option ℤ)
    (smooth_flag : Bool) : Except ApiError (List PredictedPower) × List Query :=
  match oauth_id with
  | none =>
    get_predicted_core client window location energy_source forecast_horizon
      forecast_horizon_minutes
  | some oid =>
    let chk := check_user_access client location energy_source LocationType.site oid
    match chk.1 with
    | Except.error e => (Except.error e, chk.2)
    | Except.ok _ =>
      let rest := get_predicted_core client window location energy_source forecast_horizon
        forecast_horizon_minutes
      (rest.1, chk.2 ++ rest.2)

/-- The `GetObservationsAsTimeseriesRequest` of `client.py` lines 196 to
204, with the fixed observer name. -/
def observationsRequest (window : TimeWindow) (location : String)
    (energy_source : EnergySource) : GetObservationsAsTimeseriesRequest :=
  { location_uuid := location
    observer_name := "ruvnl"
    energy_source := energy_source
    time_window := window }

/-- Body of `_get_actual_power_production_for_location` after the access
check (`client.py` lines 195 to 214). -/
def get_actual_core (client : DpClient) (window : TimeWindow) (location : String)
    (energy_source : EnergySource) : Except ApiError (List ActualPower) × List Query :=
  let req := observationsRequest window location energy_source
  (Except.ok ((client.get_observations_as_timeseries req).map actual_power_of_value),
   [Query.getObservationsAsTimeseries req])

/-- Method `_get_actual_power_production_for_location` (`client.py` lines 180 to
214). -/
def get_actual_power_production_for_location (client : DpClient) (window : TimeWindow)
    (location : String) (energy_source : EnergySource) (oauth_id : Option String) :
    Except ApiError (List ActualPower) × List Query :=
  match oauth_id with
  | none => get_actual_core client window location energy_source
  | some oid =>
    let chk := check_user_access client location energy_source LocationType.site oid
    match chk.1 with
    | Except.error e => (Except.error e, chk.2)
    | Except.ok _ =>
      let rest := get_actual_core client window location energy_source
      (rest.1, chk.2 ++ rest.2)

/-- Method `get_site_forecast` (`client.py` lines 140 to 151): predicted power for
the site with the solar energy source and the identity subject, default
horizon arguments. -/
def get_site_forecast (client : DpClient) (window : TimeWindow) (site_uuid : String)
    (authdata_sub : String) : Except ApiError (List PredictedPower) × List Query :=
  get_predicted_power_production_for_location client window site_uuid EnergySource.solar
    (some authdata_sub) ForecastHorizon.latest none true

/-- Method `get_site_generation` (`client.py` lines 153 to 164). -/
def get_site_generation (client : DpClient) (window : TimeWindow) (site_uuid : String)
    (authdata_sub : String) : Except ApiError (List ActualPower) × List Query :=
  get_actual_power_production_for_location client window site_uuid EnergySource.solar
    (some authdata_sub)

/-- Method `put_site` (`client.py` lines 131 to 138): unconditionally raises
`NotImplementedError`, issuing no remote query. -/
def put_site (client : DpClient) (site_uuid : String) (site_properties : SiteProperties)
    (authdata_sub : String) : Except ApiError Site × List Query :=
  (Except.error (ApiError.notImplementedError siteWritingMsg), [])

/-- Method `post_site_generation` (`client.py` lines 166 to 173): unconditionally
raises `NotImplementedError`, issuing no remote query. -/
def post_site_generation (client : DpClient) (site_uuid : String)
    (generation : List ActualPower) (authdata_sub : String) :
    Except ApiError Unit × List Query :=
  (Except.error (ApiError.notImplementedError siteWritingMsg), [])

/-- Lookup of a numeric metadata field, mirroring the dictionary membership
test and access of `client.py` lines 118 to 123. -/
def metadataLookup (fields : List (String × ℚ)) (key : String) : Option ℚ :=
  (fields.find? (fun kv => decide (kv.1 = key))).map Prod.snd

/-- The `ListLocationsRequest` of `get_sites` (`client.py` lines 108 to
112). -/
def sitesRequest (authdata_sub : String) : ListLocationsRequest :=
  { location_uuids_filter := []
    energy_source_filter := EnergySource.solar
    location_type_filter := LocationType.site
    user_oauth_id_filter := some authdata_sub }

/-- Construction of one `Site` from a location record (`client.py` lines 115
to 127): orientation and tilt come from metadata when the keys are present
and are `None` otherwise; capacity is the float floor division of watts by
1000. -/
def site_of_location (loc : DpLocation) : Site :=
  { site_uuid := loc.location_uuid
    client_site_name := some loc.location_name
    orientation := metadataLookup loc.metadata_fields "orientation"
    tilt := metadataLookup loc.metadata_fields "tilt"
    capacity_kw := (⌊(loc.effective_capacity_watts : ℚ) / 1000⌋ : ℚ)
    latitude := loc.latitude
    longitude := loc.longitude }

/-- Method `get_sites` (`client.py` lines 106 to 129). -/
def get_sites (client : DpClient) (authdata_sub : String) :
    Except ApiError (List Site) × List Query :=
  let req := sitesRequest authdata_sub
  (Except.ok ((client.list_locations req).map site_of_location),
   [Query.listLocations req])

/-- A remote service whose every response is empty. -/
def emptyClient : DpClient :=
  { list_locations := fun _ => []
    get_latest_forecasts := fun _ => []
    get_forecast_as_timeseries := fun _ => []
    get_observations_as_timeseries := fun _ => [] }

/-- A concrete reporting window. -/
def window0 : TimeWindow := { start_timestamp_utc := 1000, end_timestamp_utc := 2000 }

/-- Forecast run created at time 10. -/
def runT1 : DpForecast := { forecaster := "f1", created_timestamp_utc := 10 }

/-- Forecast run created at time 20. -/
def runT2 : DpForecast := { forecaster := "f2", created_timestamp_utc := 20 }

/-- Forecast run created at time 30. -/
def runT3 : DpForecast := { forecaster := "f3", created_timestamp_utc := 30 }

/-- An observation with capacity 1000 watts and fraction one half. -/
def obsHalf : ObservationValue :=
  { timestamp_utc := 0, effective_capacity_watts := 1000, value_fraction := 1/2 }

/-- A forecast value with capacity 1000 watts and p50 fraction one half. -/
def fvHalf : ForecastValue :=
  { target_timestamp_utc := 0, created_timestamp_utc := 0,
    effective_capacity_watts := 1000, p50_value_fraction := 1/2 }

/-- A forecast run used by the unit-conversion fixture. -/
def runHalf : DpForecast := { forecaster := "fh", created_timestamp_utc := 5 }

/-- A remote service with one run, one forecast value and one observation. -/
def clientHalf : DpClient :=
  { list_locations := fun _ => []
    get_latest_forecasts := fun _ => [runHalf]
    get_forecast_as_timeseries := fun _ => [fvHalf]
    get_observations_as_timeseries := fun _ => [obsHalf] }

/-- A site location whose metadata carries neither orientation nor tilt. -/
def locNoMeta : DpLocation :=
  { location_uuid := "site-1", location_name := "Site One", metadata_fields := [],
    effective_capacity_watts := 5000, latitude := 1, longitude := 2 }

/-- A remote service listing exactly the metadata-free site location. -/
def clientNoMeta : DpClient :=
  { list_locations := fun _ => [locNoMeta]
    get_latest_forecasts := fun _ => []
    get_forecast_as_timeseries := fun _ => []
    get_observations_as_timeseries := fun _ => [] }

/-- C6: for every input, `put_site` and `post_site_generation` of the data
platform client return the `NotImplementedError` and issue no remote query,
so they never succeed silently nor modify any state. -/
theorem c6_writes_unsupported (client : DpClient) (site_uuid : String)
    (props : SiteProperties) (gen : List ActualPower) (sub : String) :
    put_site client site_uuid props sub =
      (Except.error (ApiError.notImplementedError siteWritingMsg), []) ∧
    post_site_generation client site_uuid gen sub =
      (Except.error (ApiError.notImplementedError siteWritingMsg), []) :=
  ⟨rfl, rfl⟩

/-- C9: the client-visible serialization of a `PredictedPower` value is
determined by `PowerKW` and `Time` alone; two values differing only in
`CreatedTime` serialize identically. -/
theorem c9_created_time_not_serialized (p q : PredictedPower)
    (hk : p.PowerKW = q.PowerKW) (ht : p.Time = q.Time) :
    p.serializedFields = q.serializedFields := by
  simp [PredictedPower.serializedFields, hk, ht]

/-- Witness for C9 at two concrete values differing only in `CreatedTime`. -/
theorem c9_created_time_witness :
    ({ PowerKW := 1, Time := 2, CreatedTime := 3 } : PredictedPower).serializedFields =
      ({ PowerKW := 1, Time := 2, CreatedTime := 99 } : PredictedPower).serializedFields :=
  c9_created_time_not_serialized _ _ rfl rfl

/-- Every run-listing query issued by the predicted-power retrieval carries
the request built by `forecastsRequest`, whose pivot is the window start
minus the resolved horizon minutes. -/
theorem predicted_runs_request_eq (client : DpClient) (window : TimeWindow) (location : String)
    (es : EnergySource) (oauth_id : Option String) (fh : ForecastHorizon) (fhm : Option ℤ)
    (sf : Bool) (req : GetLatestForecastsRequest)
    (h : Query.getLatestForecasts req ∈
      (get_predicted_power_production_for_location client window location es oauth_id fh fhm
        sf).2) :
    req = forecastsRequest window location es fh fhm := by
  have hcore : Query.getLatestForecasts req ∈
      (get_predicted_core client window location es fh fhm).2 →
      req = forecastsRequest window location es fh fhm := by
    intro hq
    by_cases hlen :
      (client.get_latest_forecasts (forecastsRequest window location es fh fhm)).length = 0
    · simpa [get_predicted_core, hlen] using hq
    · simpa [get_predicted_core, hlen] using hq
  cases oauth_id with
  | none =>
    exact hcore (by simpa [get_predicted_power_production_for_location] using h)
  | some oid =>
    by_cases hacc :
      (client.list_locations (accessRequest location es LocationType.site oid)).length = 0
    · simp [get_predicted_power_production_for_location, check_user_access, hacc] at h
    · have h' : Query.getLatestForecasts req ∈
          (get_predicted_core client window location es fh fhm).2 := by
        simpa [get_predicted_power_production_for_location, check_user_access, hacc] using h
      exact hcore h'

/-- C1 (amended): whenever `forecast_horizon_minutes` is supplied, a
`day_ahead` predicted-power retrieval issues its run-selection query with a
pivot timestamp equal to the window start minus 540 minutes. -/
theorem c1_day_ahead_pivot (client : DpClient) (window : TimeWindow) (location : String)
    (es : EnergySource) (oauth_id : Option String) (m : ℤ) (sf : Bool)
    (req : GetLatestForecastsRequest)
    (h : Query.getLatestForecasts req ∈
      (get_predicted_power_production_for_location client window location es oauth_id
        ForecastHorizon.day_ahead (some m) sf).2) :
    req.pivot_timestamp_utc = window.start_timestamp_utc - 540 := by
  rw [predicted_runs_request_eq client window location es oauth_id ForecastHorizon.day_ahead
    (some m) sf req h]
  rfl

/-- Witness for the amended C1 at a concrete client, window and horizon. -/
theorem c1_day_ahead_pivot_witness :
    ({ location_uuid := "loc", energy_source := EnergySource.solar,
       pivot_timestamp_utc := 460 } : GetLatestForecastsRequest).pivot_timestamp_utc =
      window0.start_timestamp_utc - 540 :=
  c1_day_ahead_pivot emptyClient window0 "loc" EnergySource.solar none 30 true
    { location_uuid := "loc", energy_source := EnergySource.solar,
      pivot_timestamp_utc := 460 } (by decide)

/-- Counterexample to C1 as stated: a `day_ahead` retrieval with
`forecast_horizon_minutes` absent resolves the offset to 0, so the pivot of
the run-selection query equals the window start itself and not the window
start minus 540 minutes. -/
theorem c1_day_ahead_counterexample :
    (get_predicted_power_production_for_location emptyClient window0 "loc" EnergySource.solar
        none ForecastHorizon.day_ahead none true).2 =
      [Query.getLatestForecasts
        { location_uuid := "loc", energy_source := EnergySource.solar,
          pivot_timestamp_utc := 1000 }] ∧
    (1000 : ℤ) ≠ window0.start_timestamp_utc - 540 := by
  decide

/-- C2: a predicted-power retrieval with horizon `latest`, or with
`forecast_horizon_minutes` absent, is equal (same result, same queries) to
an explicit-horizon retrieval with `forecast_horizon_minutes = 0`. -/
theorem c2_latest_equiv_offset_zero (client : DpClient) (window : TimeWindow) (location : String)
    (es : EnergySource) (oauth_id : Option String) (fh : ForecastHorizon) (fhm : Option ℤ)
    (sf : Bool) (h : fh = ForecastHorizon.latest ∨ fhm = none) :
    get_predicted_power_production_for_location client window location es oauth_id fh fhm sf =
      get_predicted_power_production_for_location client window location es oauth_id
        ForecastHorizon.horizon (some 0) sf := by
  have hres : resolve_forecast_horizon_minutes fh fhm =
      resolve_forecast_horizon_minutes ForecastHorizon.horizon (some 0) := by
    rcases h with h | h
    · subst h; cases fhm <;> rfl
    · subst h; cases fh <;> rfl
  have h1 : forecastsRequest window location es fh fhm =
      forecastsRequest window location es ForecastHorizon.horizon (some 0) := by
    simp [forecastsRequest, hres]
  have h2 : valuesRequest client window location es fh fhm =
      valuesRequest client window location es ForecastHorizon.horizon (some 0) := by
    simp [valuesRequest, hres, h1]
  have h3 : get_predicted_core client window location es fh fhm =
      get_predicted_core client window location es ForecastHorizon.horizon (some 0) := by
    simp [get_predicted_core, h1, h2]
  cases oauth_id <;> simp only [get_predicted_power_production_for_location, h3]

/-- Witness for C2 at a concrete client and window with horizon `latest`. -/
theorem c2_latest_equiv_witness :
    get_predicted_power_production_for_location emptyClient window0 "loc" EnergySource.solar
        none ForecastHorizon.latest none true =
      get_predicted_power_production_for_location emptyClient window0 "loc" EnergySource.solar
        none ForecastHorizon.horizon (some 0) true :=
  c2_latest_equiv_offset_zero emptyClient window0 "loc" EnergySource.solar none
    ForecastHorizon.latest none true (Or.inl rfl)

/-- C4: when the run-listing query returns zero forecast runs (and the
access check, if any, passes), the predicted-power retrieval returns the
empty list successfully and raises no error. -/
theorem c4_zero_runs_empty_ok (client : DpClient) (window : TimeWindow) (location : String)
    (es : EnergySource) (oauth_id : Option String) (fh : ForecastHorizon) (fhm : Option ℤ)
    (sf : Bool)
    (hruns : client.get_latest_forecasts (forecastsRequest window location es fh fhm) = [])
    (haccess : ∀ oid, oauth_id = some oid →
      (client.list_locations (accessRequest location es LocationType.site oid)).length ≠ 0) :
    (get_predicted_power_production_for_location client window location es oauth_id fh fhm
      sf).1 = Except.ok [] := by
  have hcore : (get_predicted_core client window location es fh fhm).1 = Except.ok [] := by
    simp [get_predicted_core, hruns]
  cases oauth_id with
  | none => simpa [get_predicted_power_production_for_location] using hcore
  | some oid =>
    have hne := haccess oid rfl
    simp [get_predicted_power_production_for_location, check_user_access, hne, hcore]

/-- Witness for C4 at a client with no forecast runs. -/
theorem c4_zero_runs_witness :
    (get_predicted_power_production_for_location emptyClient window0 "loc" EnergySource.solar
      none ForecastHorizon.latest none true).1 = Except.ok [] :=
  c4_zero_runs_empty_ok emptyClient window0 "loc" EnergySource.solar none ForecastHorizon.latest
    none true rfl (fun oid h => by cases h)

/-- Every query issued by the predicted-power retrieval carries the energy
source it was called with. -/
theorem predicted_trace_energy (client : DpClient) (window : TimeWindow) (location : String)
    (es : EnergySource) (oauth_id : Option String) (fh : ForecastHorizon) (fhm : Option ℤ)
    (sf : Bool) (q : Query)
    (hq : q ∈ (get_predicted_power_production_for_location client window location es oauth_id
      fh fhm sf).2) :
    q.energySourceOf = es := by
  have hcore : q ∈ (get_predicted_core client window location es fh fhm).2 →
      q.energySourceOf = es := by
    intro hc
    by_cases hlen :
      (client.get_latest_forecasts (forecastsRequest window location es fh fhm)).length = 0
    · simp [get_predicted_core, hlen] at hc
      subst hc; rfl
    · simp [get_predicted_core, hlen] at hc
      rcases hc with hc | hc <;> subst hc <;> rfl
  cases oauth_id with
  | none => exact hcore (by simpa [get_predicted_power_production_for_location] using hq)
  | some oid =>
    by_cases hacc :
      (client.list_locations (accessRequest location es LocationType.site oid)).length = 0
    · simp [get_predicted_power_production_for_location, check_user_access, hacc] at hq
      subst hq; rfl
    · have hq' : q = Query.listLocations (accessRequest location es LocationType.site oid) ∨
          q ∈ (get_predicted_core client window location es fh fhm).2 := by
        simpa [get_predicted_power_production_for_location, check_user_access, hacc] using hq
      rcases hq' with h | h
      · subst h; rfl
      · exact hcore h

/-- Every query issued by the actual-power retrieval carries the energy
source it was called with. -/
theorem actual_trace_energy (client : DpClient) (window : TimeWindow) (location : String)
    (es : EnergySource) (oauth_id : Option String) (q : Query)
    (hq : q ∈ (get_actual_power_production_for_location client window location es oauth_id).2) :
    q.energySourceOf = es := by
  have hcore : q ∈ (get_actual_core client window location es).2 → q.energySourceOf = es := by
    intro hc
    simp [get_actual_core] at hc
    subst hc; rfl
  cases oauth_id with
  | none => exact hcore (by simpa [get_actual_power_production_for_location] using hq)
  | some oid =>
    by_cases hacc :
      (client.list_locations (accessRequest location es LocationType.site oid)).length = 0
    · simp [get_actual_power_production_for_location, check_user_access, hacc] at hq
      subst hq; rfl
    · have hq' : q = Query.listLocations (accessRequest location es LocationType.site oid) ∨
          q ∈ (get_actual_core client window location es).2 := by
        simpa [get_actual_power_production_for_location, check_user_access, hacc] using hq
      rcases hq' with h | h
      · subst h; rfl
      · exact hcore h

/-- C10: `get_site_forecast` and `get_site_generation` only ever issue
remote queries whose energy source is solar, for every site uuid and
identity subject. -/
theorem c10_site_ops_always_solar (client : DpClient) (window : TimeWindow)
    (site_uuid : String) (sub : String) :
    (∀ q ∈ (get_site_forecast client window site_uuid sub).2,
        q.energySourceOf = EnergySource.solar) ∧
    (∀ q ∈ (get_site_generation client window site_uuid sub).2,
        q.energySourceOf = EnergySource.solar) :=
  ⟨fun q hq => predicted_trace_energy client window site_uuid EnergySource.solar
      (some sub) ForecastHorizon.latest none true q hq,
   fun q hq => actual_trace_energy client window site_uuid EnergySource.solar (some sub) q hq⟩

/-- Witness for C10 at a concrete client and site. -/
theorem c10_site_ops_witness :
    (Query.listLocations
      (accessRequest "s" EnergySource.solar LocationType.site "u")).energySourceOf =
      EnergySource.solar :=
  (c10_site_ops_always_solar emptyClient window0 "s" "u").1
    (Query.listLocations (accessRequest "s" EnergySource.solar LocationType.site "u"))
    (by decide)

/-- C7: for a site-scoped retrieval whose identity subject has no registered
relationship to the site (the filtered location listing is empty), both
`get_site_forecast` and `get_site_generation` raise the 404 `HTTPException`,
return no data, and their only remote query is the access check itself, so
the check happens before any data fetch. -/
theorem c7_access_guard_notfound (client : DpClient) (window : TimeWindow)
    (site_uuid : String) (sub : String)
    (h : client.list_locations
      (accessRequest site_uuid EnergySource.solar LocationType.site sub) = []) :
    get_site_forecast client window site_uuid sub =
      (Except.error (ApiError.httpException 404
        ("No location found for UUID " ++ site_uuid ++ " and OAuth ID " ++ sub)),
       [Query.listLocations (accessRequest site_uuid EnergySource.solar LocationType.site sub)]) ∧
    get_site_generation client window site_uuid sub =
      (Except.error (ApiError.httpException 404
        ("No location found for UUID " ++ site_uuid ++ " and OAuth ID " ++ sub)),
       [Query.listLocations (accessRequest site_uuid EnergySource.solar LocationType.site sub)]) := by
  have hlen : (client.list_locations
      (accessRequest site_uuid EnergySource.solar LocationType.site sub)).length = 0 := by
    rw [h]; rfl
  constructor
  · simp [get_site_forecast, get_predicted_power_production_for_location, check_user_access,
      hlen]
  · simp [get_site_generation, get_actual_power_production_for_location, check_user_access,
      hlen]

/-- Witness for C7 at a client with no registered locations. -/
theorem c7_access_guard_witness :
    get_site_forecast emptyClient window0 "site-x" "user-x" =
      (Except.error (ApiError.httpException 404
        ("No location found for UUID " ++ "site-x" ++ " and OAuth ID " ++ "user-x")),
       [Query.listLocations
         (accessRequest "site-x" EnergySource.solar LocationType.site "user-x")]) ∧
    get_site_generation emptyClient window0 "site-x" "user-x" =
      (Except.error (ApiError.httpException 404
        ("No location found for UUID " ++ "site-x" ++ " and OAuth ID " ++ "user-x")),
       [Query.listLocations
         (accessRequest "site-x" EnergySource.solar LocationType.site "user-x")]) :=
  c7_access_guard_notfound emptyClient window0 "site-x" "user-x" rfl

/-- The head of the descending-creation-time sort of a run list is the run
with the strictly latest creation timestamp, whenever one exists. -/
theorem mergeSort_headD_strict_max (fs : List DpForecast) (r d : DpForecast)
    (hr : r ∈ fs)
    (hmax : ∀ s ∈ fs, s ≠ r → s.created_timestamp_utc < r.created_timestamp_utc) :
    (fs.mergeSort createdDesc).headD d = r := by
  have tr : ∀ a b c : DpForecast, createdDesc a b → createdDesc b c → createdDesc a c := by
    intro a b c hab hbc
    simp only [createdDesc, decide_eq_true_eq] at *
    omega
  have tot : ∀ a b : DpForecast, createdDesc a b || createdDesc b a := by
    intro a b
    simp only [createdDesc, Bool.or_eq_true, decide_eq_true_eq]
    omega
  have hperm := List.mergeSort_perm fs createdDesc
  have hsorted := List.sorted_mergeSort tr tot fs
  cases hl : fs.mergeSort createdDesc with
  | nil =>
    rw [hl] at hperm
    rw [hperm.symm.eq_nil] at hr
    cases hr
  | cons a t =>
    rw [hl] at hperm hsorted
    simp only [List.headD_cons]
    by_cases heq : a = r
    · exact heq
    · have hafs : a ∈ fs := hperm.mem_iff.mp (by simp)
      have h1 : a.created_timestamp_utc < r.created_timestamp_utc := hmax a hafs heq
      have hrl : r ∈ a :: t := hperm.mem_iff.mpr hr
      have h2 : r.created_timestamp_utc ≤ a.created_timestamp_utc := by
        rcases List.mem_cons.mp hrl with h3 | h3
        · exact absurd h3.symm heq
        · have h4 := List.rel_of_pairwise_cons hsorted h3
          simpa [createdDesc] using h4
      omega

/-- C3: run selection is deterministic; for every run list containing a run
whose creation timestamp is strictly latest, the selection (stable sort by
creation timestamp descending, first element) yields the
forecaster of that run. -/
theorem c3_selects_latest_run (fs : List DpForecast) (r : DpForecast)
    (hr : r ∈ fs)
    (hmax : ∀ s ∈ fs, s ≠ r → s.created_timestamp_utc < r.created_timestamp_utc) :
    select_forecaster fs = r.forecaster := by
  unfold select_forecaster
  rw [mergeSort_headD_strict_max fs r _ hr hmax]

/-- Witness for C3 at three concrete runs created at 10 < 20 < 30, listed
out of order: the run created at 30 is selected. -/
theorem c3_selects_latest_run_witness :
    select_forecaster [runT2, runT3, runT1] = runT3.forecaster :=
  c3_selects_latest_run [runT2, runT3, runT1] runT3 (by decide) (by decide)

/-- The unit-conversion contract of C5 for one actual-power output value and
one predicted-power output value of the data platform client: each equals
the Python integer truncation of effective capacity in watts times the
corresponding fraction over 1000, and is integral. -/
def powerConversionSpec (client : DpClient) (window : TimeWindow) (location : String)
    (es : EnergySource) (fh : ForecastHorizon) (fhm : Option ℤ)
    (pa : ActualPower) (pp : PredictedPower) : Prop :=
  (∃ v ∈ client.get_observations_as_timeseries (observationsRequest window location es),
    pa.PowerKW = (pyTrunc (v.effective_capacity_watts * v.value_fraction / 1000) : ℚ)) ∧
  (∃ n : ℤ, pa.PowerKW = (n : ℚ)) ∧
  (∃ v ∈ client.get_forecast_as_timeseries (valuesRequest client window location es fh fhm),
    pp.PowerKW = (pyTrunc (v.effective_capacity_watts * v.p50_value_fraction / 1000) : ℚ)) ∧
  (∃ n : ℤ, pp.PowerKW = (n : ℚ))

/-- C5: every actual-power value and every predicted-power value returned by
the data platform client has an integral `PowerKW` equal to the truncation
of capacity times fraction over 1000 (observed fraction for actuals, p50
fraction for predictions). -/
theorem c5_unit_conversion (client : DpClient) (window : TimeWindow) (location : String)
    (es : EnergySource) (fh : ForecastHorizon) (fhm : Option ℤ)
    (pa : ActualPower) (pp : PredictedPower)
    (ha : pa ∈ okValues (get_actual_core client window location es))
    (hp : pp ∈ okValues (get_predicted_core client window location es fh fhm)) :
    powerConversionSpec client window location es fh fhm pa pp := by
  have ha' : ∃ v ∈ client.get_observations_as_timeseries (observationsRequest window location es),
      actual_power_of_value v = pa := by
    simpa [okValues, get_actual_core, List.mem_map] using ha
  by_cases hlen :
    (client.get_latest_forecasts (forecastsRequest window location es fh fhm)).length = 0
  · simp [okValues, get_predicted_core, hlen] at hp
  · have hp' : ∃ v ∈ client.get_forecast_as_timeseries
        (valuesRequest client window location es fh fhm),
        predicted_power_of_value v = pp := by
      simpa [okValues, get_predicted_core, hlen, List.mem_map] using hp
    rcases ha' with ⟨va, hva, hvapa⟩
    rcases hp' with ⟨vp, hvp, hvppp⟩
    refine ⟨⟨va, hva, ?_⟩, ⟨pyTrunc (va.effective_capacity_watts * va.value_fraction / 1000), ?_⟩,
      ⟨vp, hvp, ?_⟩, ⟨pyTrunc (vp.effective_capacity_watts * vp.p50_value_fraction / 1000), ?_⟩⟩
    · rw [← hvapa]; rfl
    · rw [← hvapa]; rfl
    · rw [← hvppp]; rfl
    · rw [← hvppp]; rfl

/-- Witness for C5: with effective capacity 1000 watts and fraction one
half, both retrievals return 0 kW (the truncation of 0.5), not 0.5 kW. -/
theorem c5_unit_conversion_witness :
    powerConversionSpec clientHalf window0 "loc" EnergySource.solar ForecastHorizon.latest none
      { PowerKW := 0, Time := 0 } { PowerKW := 0, Time := 0, CreatedTime := 0 } :=
  c5_unit_conversion clientHalf window0 "loc" EnergySource.solar ForecastHorizon.latest none
    { PowerKW := 0, Time := 0 } { PowerKW := 0, Time := 0, CreatedTime := 0 }
    (by norm_num [okValues, get_actual_core, clientHalf, actual_power_of_value, obsHalf,
      pyTrunc])
    (by norm_num [okValues, get_predicted_core, clientHalf, predicted_power_of_value, fvHalf,
      pyTrunc])

/-- The Site produced for a location with no orientation or tilt metadata. -/
def siteNoMeta : Site :=
  { site_uuid := "site-1", client_site_name := some "Site One",
    orientation := none, tilt := none, latitude := 1, longitude := 2, capacity_kw := 5 }

/-- Counterexample to C8 as stated: `get_sites` returns a Site whose
orientation and tilt are `None` when the location metadata lacks them; the
server-assigned defaults 180 and 35 are not applied. -/
theorem c8_defaults_counterexample :
    okValues (get_sites clientNoMeta "sub") = [siteNoMeta] ∧
    siteNoMeta.orientation = none ∧ siteNoMeta.tilt = none := by
  refine ⟨?_, rfl, rfl⟩
  norm_num [okValues, get_sites, clientNoMeta, site_of_location, locNoMeta, metadataLookup,
    siteNoMeta]

/-- C8 (amended): every Site returned by `get_sites` reproduces the
orientation and tilt of its location metadata, which are `None` when the
metadata keys are absent; the model defaults 180 and 35 are never
substituted by this backend. -/
theorem c8_sites_metadata_passthrough (client : DpClient) (sub : String) (s : Site)
    (hs : s ∈ okValues (get_sites client sub)) :
    ∃ loc ∈ client.list_locations (sitesRequest sub),
      s = site_of_location loc ∧
      s.orientation = metadataLookup loc.metadata_fields "orientation" ∧
      s.tilt = metadataLookup loc.metadata_fields "tilt" := by
  have hs' : ∃ loc ∈ client.list_locations (sitesRequest sub), site_of_location loc = s := by
    simpa [okValues, get_sites, List.mem_map] using hs
  rcases hs' with ⟨loc, hloc, hval⟩
  refine ⟨loc, hloc, hval.symm, ?_, ?_⟩
  · rw [← hval]; rfl
  · rw [← hval]; rfl

/-- Witness for the amended C8 at the metadata-free location. -/
theorem c8_sites_metadata_witness :
    ∃ loc ∈ clientNoMeta.list_locations (sitesRequest "sub"),
      siteNoMeta = site_of_location loc ∧
      siteNoMeta.orientation = metadataLookup loc.metadata_fields "orientation" ∧
      siteNoMeta.tilt = metadataLookup loc.metadata_fields "tilt" :=
  c8_sites_metadata_passthrough clientNoMeta "sub" siteNoMeta
    (by norm_num [okValues, get_sites, clientNoMeta, site_of_location, locNoMeta,
      metadataLookup, siteNoMeta])
